import Mathlib

/-!
Shallow embedding of the authentication core of `xplorertui`
(credential selection, OAuth 1.0a HMAC signing, OAuth 2.0 PKCE flow,
token persistence and refresh, response classification), translated
from `src/auth/credentials.rs`, `src/auth/mod.rs`, `src/auth/oauth1.rs`,
`src/auth/oauth2_pkce.rs` and `src/api/mod.rs`, together with theorems
settling the specification claims about it.

External crates (`hmac`/`sha1`/`base64`, `url`, `serde_json`, the HTTP
stack) are not repository code; they are abstracted as explicit inputs:
the HMAC-and-base64 pipeline as an opaque-to-the-theorem function
argument, a parsed URL as its structured parts, the JSON wire format as
a JSON tree, and HTTP responses as a record of status, parsed rate-limit
headers and body.
-/

namespace Xplorer

/-- OAuth 1.0a credentials (`src/auth/credentials.rs`, `OAuth1Credentials`). -/
structure OAuth1Credentials where
  api_key : String
  api_secret : String
  access_token : String
  access_token_secret : String
  bearer_token : Option String
deriving DecidableEq

/-- OAuth 2.0 PKCE credentials (`src/auth/credentials.rs`, `OAuth2Credentials`). -/
structure OAuth2Credentials where
  client_id : String
  client_secret : Option String
deriving DecidableEq

/-- App-only bearer token (`src/auth/credentials.rs`, `BearerCredentials`). -/
structure BearerCredentials where
  bearer_token : String
deriving DecidableEq

/-- All detected credentials bundled together
(`src/auth/credentials.rs`, `CredentialSet`). -/
structure CredentialSet where
  oauth1 : Option OAuth1Credentials
  oauth2 : Option OAuth2Credentials
  bearer : Option BearerCredentials
deriving DecidableEq

/-- Which authentication strategy to use (`src/auth/mod.rs`, `AuthMethod`).
`OAuth2Pkce` is the spec's PkceDelegated, `OAuth1` its SignedUserContext,
`BearerOnly` its StaticBearerOnly. -/
inductive AuthMethod where
  | OAuth2Pkce
  | OAuth1
  | BearerOnly
deriving DecidableEq

/-- Errors of the OAuth2/PKCE module (`src/auth/oauth2_pkce.rs`, `OAuth2Error`).
Payloads of the wrapped foreign error types are modelled as their
display strings. -/
inductive OAuth2Error where
  | request (msg : String)
  | csrfMismatch
  | missingCode
  | io (msg : String)
  | json (msg : String)
  | noRefreshToken
  | portInUse (port : Nat)
deriving DecidableEq

/-- Errors of the auth module (`src/auth/mod.rs`, `AuthError`). -/
inductive AuthError where
  | credential (msg : String)
  | oauth2 (e : OAuth2Error)
  | noAuthMethod
  | oauth1Required
  | http (msg : String)
  | userParse (msg : String)
deriving DecidableEq

/-- Pick the best available auth method from a credential set
(`src/auth/mod.rs`, `detect_auth_method`). -/
def detect_auth_method (creds : CredentialSet) : Except AuthError AuthMethod :=
  if creds.oauth2.isSome then
    .ok .OAuth2Pkce
  else if creds.oauth1.isSome then
    .ok .OAuth1
  else if creds.bearer.isSome then
    .ok .BearerOnly
  else
    .error .noAuthMethod

/-!
Byte-wise lexicographic string order. Rust compares `String`s by the
lexicographic order on their UTF-8 bytes, which coincides with the
lexicographic order on Unicode code points; we model it on the
code-point sequence (`String.data`, compared through `Char.toNat`).
-/

/-- Lexicographic strict order on char lists, comparing code points. -/
def charListLtB : List Char → List Char → Bool
  | [], [] => false
  | [], _ :: _ => true
  | _ :: _, [] => false
  | a :: as, b :: bs =>
    if a.toNat < b.toNat then true
    else if b.toNat < a.toNat then false
    else charListLtB as bs

/-- Rust's `String` strict order (byte-wise lexicographic). -/
def strLtB (s t : String) : Bool :=
  charListLtB s.data t.data

/-- Rust's derived lexicographic order on `(String, String)` tuples:
compare the first components, break ties on the second. This is the
order `Vec::<(String, String)>::sort` sorts by in `src/auth/oauth1.rs`. -/
def pairLeB (a b : String × String) : Bool :=
  if strLtB a.1 b.1 then true
  else if strLtB b.1 a.1 then false
  else !strLtB b.2 a.2

/-- The pair order as a proposition, for use with `List.insertionSort`. -/
def pairLe (a b : String × String) : Prop :=
  pairLeB a b = true

instance pairLe.decRel : DecidableRel pairLe :=
  fun a b => inferInstanceAs (Decidable (pairLeB a b = true))


/-- ASCII uppercase letter test on a byte. -/
def isAsciiUpperB (b : Nat) : Bool := 65 ≤ b && b ≤ 90

/-- ASCII lowercase letter test on a byte. -/
def isAsciiLowerB (b : Nat) : Bool := 97 ≤ b && b ≤ 122

/-- ASCII digit test on a byte. -/
def isAsciiDigitB (b : Nat) : Bool := 48 ≤ b && b ≤ 57

/-- The `percent_encoding` crate's `NON_ALPHANUMERIC` set: every ASCII
byte that is not a letter or digit. -/
def NON_ALPHANUMERIC (b : Nat) : Bool :=
  !(isAsciiUpperB b || isAsciiLowerB b || isAsciiDigitB b)

/-- `ENCODE_SET` from `src/auth/oauth1.rs`:
`NON_ALPHANUMERIC.remove(b'-').remove(b'.').remove(b'_').remove(b'~')`. -/
def ENCODE_SET (b : Nat) : Bool :=
  NON_ALPHANUMERIC b && !(b == 45 || b == 46 || b == 95 || b == 126)

/-- `utf8_percent_encode` encodes a byte iff it is non-ASCII or in the
given set. -/
def shouldEncodeByte (b : Nat) : Bool :=
  128 ≤ b || ENCODE_SET b

/-- Uppercase hexadecimal digit for a value below 16. -/
def hexUpperDigit (n : Nat) : Char :=
  if n < 10 then Char.ofNat (48 + n) else Char.ofNat (55 + n)

/-- Encode one byte: pass it through verbatim or emit `%` plus two
uppercase hex digits, as `utf8_percent_encode` does. -/
def encodeByte (b : Nat) : List Char :=
  if shouldEncodeByte b then ['%', hexUpperDigit (b / 16), hexUpperDigit (b % 16)]
  else [Char.ofNat b]

/-- UTF-8 encoding of one scalar value, the byte sequence Rust's `str`
stores and `utf8_percent_encode` walks. -/
def utf8EncodeChar (c : Char) : List Nat :=
  let n := c.toNat
  if n < 128 then [n]
  else if n < 2048 then [192 + n / 64, 128 + n % 64]
  else if n < 65536 then [224 + n / 4096, 128 + (n / 64) % 64, 128 + n % 64]
  else [240 + n / 262144, 128 + (n / 4096) % 64, 128 + (n / 64) % 64, 128 + n % 64]

/-- `percent_encode` from `src/auth/oauth1.rs`:
`utf8_percent_encode(s, ENCODE_SET).to_string()`. -/
def percent_encode (s : String) : String :=
  String.mk ((s.data.flatMap utf8EncodeChar).flatMap encodeByte)

/-- Modelled from the spec's words (claims C7): a byte is unreserved iff
it is an ASCII letter, a digit, or one of `-`, `.`, `_`, `~`. -/
def isUnreservedSpec (b : Nat) : Bool :=
  isAsciiUpperB b || isAsciiLowerB b || isAsciiDigitB b ||
    b == 45 || b == 46 || b == 95 || b == 126

/-- Modelled from the spec's words (claim C7): leave an unreserved byte
unchanged, percent-encode every other byte. -/
def percentEncodeSpecByte (b : Nat) : List Char :=
  if isUnreservedSpec b then [Char.ofNat b]
  else ['%', hexUpperDigit (b / 16), hexUpperDigit (b % 16)]

/-- The sort applied to parameter pair lists
(`all_params.sort()` / `oauth_params.sort()` in `src/auth/oauth1.rs`).
The pair order is total and antisymmetric, so the sorted result is the
same for every correct sorting algorithm; insertion sort realizes it. -/
def sortPairs (l : List (String × String)) : List (String × String) :=
  List.insertionSort pairLe l

/-!
OAuth 1.0a signing (`src/auth/oauth1.rs`, `generate_oauth_header`).
The `url` crate's parse step is modelled by taking the URL as its parsed
parts; the `hmac`/`sha1`/`base64` pipeline (an external crate stack that
the function composes in steps 6-7) is taken as a function argument
`hmacSha1Base64 key message`; the randomized nonce and timestamp are
taken as arguments, as the spec's determinism property also does.
-/

/-- A parsed request URL: scheme, host, path and decoded query pairs
(the `Url::parse` result used in `generate_oauth_header`). -/
structure UrlParts where
  scheme : String
  host : String
  path : String
  query : List (String × String)

/-- Step 1 of `generate_oauth_header`: the six core protocol parameters,
in source order (signature not yet included). -/
def oauthParams (creds : OAuth1Credentials) (nonce timestamp : String) :
    List (String × String) :=
  [("oauth_consumer_key", creds.api_key),
   ("oauth_nonce", nonce),
   ("oauth_signature_method", "HMAC-SHA1"),
   ("oauth_timestamp", timestamp),
   ("oauth_token", creds.access_token),
   ("oauth_version", "1.0")]

/-- Step 2: all parameters entering the signature base — the six
protocol parameters, the caller's extra params, and the URL query
pairs. -/
def allSignatureParams (creds : OAuth1Credentials) (nonce timestamp : String)
    (params : Option (List (String × String))) (url : UrlParts) :
    List (String × String) :=
  oauthParams creds nonce timestamp ++ params.getD [] ++ url.query

/-- Step 3: `all_params.sort()` on the raw pairs, then join the
percent-encoded `key=value` pairs with `&`. -/
def paramString (ps : List (String × String)) : String :=
  String.intercalate "&"
    ((sortPairs ps).map fun kv => percent_encode kv.1 ++ "=" ++ percent_encode kv.2)

/-- Modelled from the spec's words (claim C2): sort the pairs by their
percent-encoded representation, then join the encoded `key=value` pairs
with `&`. -/
def paramStringEncodedSort (ps : List (String × String)) : String :=
  String.intercalate "&"
    ((sortPairs (ps.map fun kv => (percent_encode kv.1, percent_encode kv.2))).map
      fun kv => kv.1 ++ "=" ++ kv.2)

/-- Step 4: the base URL with the query string stripped. -/
def baseUrlOf (url : UrlParts) : String :=
  url.scheme ++ "://" ++ url.host ++ url.path

/-- Step 5: the signature base string. -/
def signatureBaseString (method : String) (url : UrlParts)
    (ps : List (String × String)) : String :=
  method.toUpper ++ "&" ++ percent_encode (baseUrlOf url) ++ "&" ++
    percent_encode (paramString ps)

/-- Step 6: the signing key. -/
def signingKey (creds : OAuth1Credentials) : String :=
  percent_encode creds.api_secret ++ "&" ++ percent_encode creds.access_token_secret

/-- Step 7: the base64-encoded HMAC-SHA1 signature (the HMAC/base64
crates abstracted as `hmacSha1Base64`). -/
def oauthSignature (hmacSha1Base64 : String → String → String)
    (method : String) (url : UrlParts) (creds : OAuth1Credentials)
    (params : Option (List (String × String))) (nonce timestamp : String) : String :=
  hmacSha1Base64 (signingKey creds)
    (signatureBaseString method url (allSignatureParams creds nonce timestamp params url))

/-- Step 8: the protocol parameters with `oauth_signature` appended,
re-sorted (`oauth_params.sort()`). -/
def headerParams (hmacSha1Base64 : String → String → String)
    (method : String) (url : UrlParts) (creds : OAuth1Credentials)
    (params : Option (List (String × String))) (nonce timestamp : String) :
    List (String × String) :=
  sortPairs (oauthParams creds nonce timestamp ++
    [("oauth_signature", oauthSignature hmacSha1Base64 method url creds params nonce timestamp)])

/-- Step 9 and result: `generate_oauth_header` from `src/auth/oauth1.rs`,
rendering `OAuth k1="v1", k2="v2", ...` with percent-encoded keys and
values. -/
def generate_oauth_header (hmacSha1Base64 : String → String → String)
    (method : String) (url : UrlParts) (creds : OAuth1Credentials)
    (params : Option (List (String × String))) (nonce timestamp : String) : String :=
  "OAuth " ++ String.intercalate ", "
    ((headerParams hmacSha1Base64 method url creds params nonce timestamp).map
      fun kv => percent_encode kv.1 ++ "=\"" ++ percent_encode kv.2 ++ "\"")

/-!
Token store (`src/auth/oauth2_pkce.rs`, `TokenData`, `save_tokens`,
`load_tokens`). The expiry timestamp (`DateTime<Utc>`) is modelled as an
integer; `serde_json` is modelled on JSON trees: the derived `Serialize`
writes every field (`None` as `null`), the derived `Deserialize` accepts
a missing or `null` `Option` field as `None` and fails on wrong types or
a missing `access_token`. The token file is modelled as
`Option Json` (absent or its parsed contents). -/

/-- Persisted token data (`src/auth/oauth2_pkce.rs`, `TokenData`). -/
structure TokenData where
  access_token : String
  refresh_token : Option String
  expires_at : Option Int
deriving DecidableEq

/-- A JSON tree, the shape `serde_json` reads and writes. -/
inductive Json where
  | null
  | str (s : String)
  | num (n : Int)
  | obj (fields : List (String × Json))

/-- Field lookup in a JSON object (first match). -/
def jsonLookup : List (String × Json) → String → Option Json
  | [], _ => none
  | (k, v) :: rest, name => if k = name then some v else jsonLookup rest name

/-- The derived `Serialize` for `TokenData`. -/
def serializeTokenData (d : TokenData) : Json :=
  .obj [("access_token", .str d.access_token),
        ("refresh_token", match d.refresh_token with
          | some r => .str r
          | none => .null),
        ("expires_at", match d.expires_at with
          | some e => .num e
          | none => .null)]

/-- The derived `Deserialize` for `TokenData` (`None` on parse failure). -/
def deserializeTokenData (j : Json) : Option TokenData :=
  match j with
  | .obj fields =>
    match jsonLookup fields "access_token" with
    | some (.str a) =>
      match jsonLookup fields "refresh_token" with
      | some (.str r) =>
        match jsonLookup fields "expires_at" with
        | some (.num e) => some ⟨a, some r, some e⟩
        | some .null => some ⟨a, some r, none⟩
        | none => some ⟨a, some r, none⟩
        | _ => none
      | some .null =>
        match jsonLookup fields "expires_at" with
        | some (.num e) => some ⟨a, none, some e⟩
        | some .null => some ⟨a, none, none⟩
        | none => some ⟨a, none, none⟩
        | _ => none
      | none =>
        match jsonLookup fields "expires_at" with
        | some (.num e) => some ⟨a, none, some e⟩
        | some .null => some ⟨a, none, none⟩
        | none => some ⟨a, none, none⟩
        | _ => none
      | _ => none
    | _ => none
  | _ => none

/-- `save_tokens` (`src/auth/oauth2_pkce.rs` lines 62-70): serialize the
record and overwrite the token file. The file system is modelled as the
optional contents of the single token file. -/
def save_tokens (_fs : Option Json) (d : TokenData) : Option Json :=
  some (serializeTokenData d)

/-- `load_tokens` (`src/auth/oauth2_pkce.rs` lines 72-80): absent file
is `none`; malformed content is a hard parse error, not absence. -/
def load_tokens (fs : Option Json) : Except OAuth2Error (Option TokenData) :=
  match fs with
  | none => .ok none
  | some j =>
    match deserializeTokenData j with
    | some d => .ok (some d)
    | none => .error (.json "invalid token file")

/-!
PKCE callback handling (`src/auth/oauth2_pkce.rs`, `start_pkce_flow`
lines 184-224): query parsing of the callback request, state and code
validation, code exchange, and persistence. The network exchange is a
function argument; the returned write list records every `save_tokens`
call the modelled fragment performs.
-/

/-- Split a character list on a separator, keeping empty segments
(the behaviour of Rust's `str::split`). -/
def splitOnChar (sep : Char) : List Char → List (List Char)
  | [] => [[]]
  | c :: rest =>
    match splitOnChar sep rest with
    | [] => [[c]]
    | h :: t => if c = sep then [] :: h :: t else (c :: h) :: t

/-- Split a character list at the first `=`, the behaviour of Rust's
`splitn(2, '=')`: the key, and the value when a `=` was found. -/
def splitFirstEq : List Char → List Char × Option (List Char)
  | [] => ([], none)
  | c :: rest =>
    if c = '=' then ([], some rest)
    else
      let kv := splitFirstEq rest
      (c :: kv.1, kv.2)

/-- Parse `code` and `state` from the callback query string
(`start_pkce_flow` lines 186-195): split on `&`, split each pair on the
first `=`, keep pairs whose key is `code` or `state` (later occurrences
overwrite earlier ones). -/
def parseCallbackQuery (query : String) : Option String × Option String :=
  (splitOnChar '&' query.data).foldl
    (fun acc pair =>
      let kv := splitFirstEq pair
      match kv.2 with
      | some value =>
        if String.mk kv.1 = "code" then (some (String.mk value), acc.2)
        else if String.mk kv.1 = "state" then (acc.1, some (String.mk value))
        else acc
      | none => acc)
    (none, none)

/-- The tail of `start_pkce_flow` (lines 206-225): validate the `state`
against the CSRF token, require a `code`, exchange it, persist on
success. Returns the flow result together with the list of token
records written to disk. -/
def finish_pkce_flow (code state : Option String) (csrfState : String)
    (exchangeCode : String → Except String TokenData) :
    Except OAuth2Error TokenData × List TokenData :=
  match state with
  | none => (.error .csrfMismatch, [])
  | some s =>
    if s ≠ csrfState then (.error .csrfMismatch, [])
    else
      match code with
      | none => (.error .missingCode, [])
      | some c =>
        match exchangeCode c with
        | .error e => (.error (.request e), [])
        | .ok data => (.ok data, [data])

/-!
API client (`src/api/mod.rs`): bearer header construction, OAuth2 token
refresh policy, user-context dispatch and response classification.
-/

/-- Errors of the API client (`src/api/mod.rs`, `ApiClientError`). -/
inductive ApiClientError where
  | http (msg : String)
  | rateLimited (reset_at : Int)
  | apiError (status : Nat) (detail : String)
  | auth (e : AuthError)
  | deserialize (msg : String)
deriving DecidableEq

/-- Central auth provider wrapping the active strategy
(`src/auth/mod.rs`, `AuthProvider`). -/
structure AuthProvider where
  method : AuthMethod
  credentials : CredentialSet
deriving DecidableEq

/-- `AuthProvider::get_bearer_header` (`src/auth/mod.rs` lines 75-87):
prefer the OAuth1 credentials' bearer token, fall back to standalone
bearer credentials, else `NoAuthMethod`. -/
def get_bearer_header (creds : CredentialSet) : Except AuthError String :=
  match creds.oauth1 with
  | some o1 =>
    match o1.bearer_token with
    | some bt => .ok ("Bearer " ++ bt)
    | none =>
      match creds.bearer with
      | some bc => .ok ("Bearer " ++ bc.bearer_token)
      | none => .error .noAuthMethod
  | none =>
    match creds.bearer with
    | some bc => .ok ("Bearer " ++ bc.bearer_token)
    | none => .error .noAuthMethod

/-- `AuthProvider::get_oauth_header` (`src/auth/mod.rs` lines 90-102):
`OAuth1Required` when the OAuth1 slot is empty, else the signed
header. -/
def get_oauth_header (hmacSha1Base64 : String → String → String)
    (creds : CredentialSet) (method : String) (url : UrlParts)
    (params : Option (List (String × String))) (nonce timestamp : String) :
    Except AuthError String :=
  match creds.oauth1 with
  | none => .error .oauth1Required
  | some o1 =>
    .ok (generate_oauth_header hmacSha1Base64 method url o1 params nonce timestamp)

/-- `XApiClient::get_oauth2_bearer` (`src/api/mod.rs` lines 105-129).
The token file load result and the network refresh exchange
(`oauth2_pkce::refresh_token`) are arguments; the `Nat` in the result
counts the refresh exchanges performed (0 or 1). -/
def get_oauth2_bearer (oauth2creds : Option OAuth2Credentials)
    (loadResult : Except OAuth2Error (Option TokenData)) (now : Int)
    (doRefresh : String → Except OAuth2Error TokenData) :
    Except ApiClientError (String × Nat) :=
  match oauth2creds with
  | none => .error (.auth .noAuthMethod)
  | some _ =>
    match loadResult with
    | .error e => .error (.auth (.oauth2 e))
    | .ok none => .error (.auth .noAuthMethod)
    | .ok (some tokens) =>
      -- Refresh if within 60 seconds of expiry (and a refresh token exists);
      -- on any failed condition fall through to the stored access token.
      match tokens.expires_at with
      | some expiresAt =>
        if now + 60 ≥ expiresAt then
          match tokens.refresh_token with
          | some refresh =>
            match doRefresh refresh with
            | .ok refreshed => .ok ("Bearer " ++ refreshed.access_token, 1)
            | .error e => .error (.auth (.oauth2 e))
          | none => .ok ("Bearer " ++ tokens.access_token, 0)
        else .ok ("Bearer " ++ tokens.access_token, 0)
      | none => .ok ("Bearer " ++ tokens.access_token, 0)

/-- The authorization-header selection of `XApiClient::oauth_get`
(`src/api/mod.rs` lines 160-164): user-context dispatch on the active
method. The refresh count is carried through from
`get_oauth2_bearer` (0 for the other branches). -/
def oauth_get_auth_header (hmacSha1Base64 : String → String → String)
    (auth : AuthProvider) (loadResult : Except OAuth2Error (Option TokenData))
    (now : Int) (doRefresh : String → Except OAuth2Error TokenData)
    (url : UrlParts) (nonce timestamp : String) :
    Except ApiClientError (String × Nat) :=
  match auth.method with
  | .OAuth2Pkce => get_oauth2_bearer auth.credentials.oauth2 loadResult now doRefresh
  | .OAuth1 =>
    match get_oauth_header hmacSha1Base64 auth.credentials "GET" url none nonce timestamp with
    | .ok h => .ok (h, 0)
    | .error e => .error (.auth e)
  | .BearerOnly =>
    match get_bearer_header auth.credentials with
    | .ok h => .ok (h, 0)
    | .error e => .error (.auth e)

/-- An HTTP response as `handle_response` sees it: status code, the
rate-limit reset header after parsing (absent when the header is missing
or unparseable), and the body text. -/
structure HttpResponse where
  status : Nat
  rateLimitReset : Option Int
  body : String

/-- `reqwest::StatusCode::is_success`: 2xx. -/
def statusIsSuccess (status : Nat) : Bool :=
  200 ≤ status && status < 300

/-- `XApiClient::handle_response` (`src/api/mod.rs` lines 177-224),
with body deserialization (`serde_json::from_str::<T>`) abstracted as
`deser`. `now` is the `Utc::now()` fallback for a missing reset
header. -/
def handle_response {α : Type} (now : Int) (deser : String → Except String α)
    (resp : HttpResponse) : Except ApiClientError α :=
  if resp.status = 429 then
    .error (.rateLimited (resp.rateLimitReset.getD now))
  else if ¬ statusIsSuccess resp.status then
    .error (.apiError resp.status resp.body)
  else
    match deser resp.body with
    | .ok v => .ok v
    | .error e => .error (.deserialize (e ++ ": " ++ resp.body))

theorem charListLtB_asymm (as : List Char) :
    ∀ bs, charListLtB as bs = true → charListLtB bs as = false := by
  induction as with
  | nil =>
    intro bs h
    cases bs with
    | nil => simp [charListLtB] at h
    | cons b bs => simp [charListLtB]
  | cons a as ih =>
    intro bs h
    cases bs with
    | nil => simp [charListLtB] at h
    | cons b bs =>
      simp only [charListLtB] at h ⊢
      by_cases hab : a.toNat < b.toNat
      · have hba : ¬ b.toNat < a.toNat := Nat.lt_asymm hab
        simp [hab, hba]
      · by_cases hba : b.toNat < a.toNat
        · simp [hab, hba] at h
        · rw [if_neg hab, if_neg hba] at h
          rw [if_neg hba, if_neg hab]
          exact ih bs h

theorem charListLtB_trans (as : List Char) :
    ∀ bs cs, charListLtB as bs = true → charListLtB bs cs = true →
      charListLtB as cs = true := by
  induction as with
  | nil =>
    intro bs cs h1 h2
    cases bs with
    | nil => simp [charListLtB] at h1
    | cons b bs =>
      cases cs with
      | nil => simp [charListLtB] at h2
      | cons c cs => simp [charListLtB]
  | cons a as ih =>
    intro bs cs h1 h2
    cases bs with
    | nil => simp [charListLtB] at h1
    | cons b bs =>
      cases cs with
      | nil => simp [charListLtB] at h2
      | cons c cs =>
        simp only [charListLtB] at h1 h2 ⊢
        by_cases hab : a.toNat < b.toNat
        · by_cases hbc : b.toNat < c.toNat
          · simp [Nat.lt_trans hab hbc]
          · by_cases hcb : c.toNat < b.toNat
            · simp [hbc, hcb] at h2
            · have hbceq : b.toNat = c.toNat := by omega
              simp [hbceq ▸ hab]
        · by_cases hba : b.toNat < a.toNat
          · simp [hab, hba] at h1
          · have habeq : a.toNat = b.toNat := by omega
            simp only [if_neg hab, if_neg hba] at h1
            by_cases hbc : b.toNat < c.toNat
            · simp [habeq ▸ hbc]
            · by_cases hcb : c.toNat < b.toNat
              · simp [hbc, hcb] at h2
              · simp only [if_neg hbc, if_neg hcb] at h2
                have hac : ¬ a.toNat < c.toNat := by omega
                have hca : ¬ c.toNat < a.toNat := by omega
                simp only [if_neg hac, if_neg hca]
                exact ih bs cs h1 h2

theorem charListLtB_eq_of_not (as : List Char) :
    ∀ bs, charListLtB as bs = false → charListLtB bs as = false → as = bs := by
  induction as with
  | nil =>
    intro bs h1 _
    cases bs with
    | nil => rfl
    | cons b bs => simp [charListLtB] at h1
  | cons a as ih =>
    intro bs h1 h2
    cases bs with
    | nil => simp [charListLtB] at h2
    | cons b bs =>
      simp only [charListLtB] at h1 h2
      by_cases hab : a.toNat < b.toNat
      · simp [hab] at h1
      · by_cases hba : b.toNat < a.toNat
        · simp [hba] at h2
        · simp only [if_neg hab, if_neg hba] at h1 h2
          have hchar : a = b := by
            apply Char.ext
            apply UInt32.ext
            have : a.toNat = b.toNat := by omega
            simpa [Char.toNat, UInt32.toNat] using this
          rw [hchar, ih bs h1 h2]

theorem strLtB_asymm {s t : String} (h : strLtB s t = true) : strLtB t s = false :=
  charListLtB_asymm s.data t.data h

theorem strLtB_eq_of_not {s t : String} (h1 : strLtB s t = false)
    (h2 : strLtB t s = false) : s = t := by
  have h := charListLtB_eq_of_not s.data t.data h1 h2
  cases s; cases t
  exact congrArg String.mk h

theorem charListLtB_irrefl (as : List Char) : charListLtB as as = false := by
  induction as with
  | nil => rfl
  | cons a as ih => simp [charListLtB, ih]

/-- Propositional characterization of the pair order. -/
theorem pairLe_iff (a b : String × String) :
    pairLe a b ↔
      strLtB a.1 b.1 = true ∨ (a.1 = b.1 ∧ strLtB b.2 a.2 = false) := by
  unfold pairLe pairLeB
  by_cases h1 : strLtB a.1 b.1 = true
  · simp [h1]
  · simp only [Bool.not_eq_true] at h1
    rw [h1]
    by_cases h2 : strLtB b.1 a.1 = true
    · rw [h2]
      simp only [if_neg (Bool.false_ne_true), if_pos rfl]
      constructor
      · intro h; exact absurd h Bool.false_ne_true
      · rintro (h | ⟨heq, _⟩)
        · exact absurd h (by simp [h1])
        · rw [heq] at h2
          exact absurd h2 (by simp [charListLtB_irrefl, strLtB])
    · simp only [Bool.not_eq_true] at h2
      rw [h2]
      simp only [if_neg (Bool.false_ne_true)]
      have heq : a.1 = b.1 := strLtB_eq_of_not h1 h2
      simp [heq, h1]

instance pairLe.isTotal : IsTotal (String × String) pairLe := by
  constructor
  intro a b
  rw [pairLe_iff, pairLe_iff]
  by_cases h1 : strLtB a.1 b.1 = true
  · exact Or.inl (Or.inl h1)
  · simp only [Bool.not_eq_true] at h1
    by_cases h2 : strLtB b.1 a.1 = true
    · exact Or.inr (Or.inl h2)
    · simp only [Bool.not_eq_true] at h2
      have heq : a.1 = b.1 := strLtB_eq_of_not h1 h2
      by_cases h3 : strLtB b.2 a.2 = true
      · exact Or.inr (Or.inr ⟨heq.symm, strLtB_asymm h3⟩)
      · simp only [Bool.not_eq_true] at h3
        exact Or.inl (Or.inr ⟨heq, h3⟩)

instance pairLe.isTrans : IsTrans (String × String) pairLe := by
  constructor
  intro a b c hab hbc
  rw [pairLe_iff] at hab hbc ⊢
  rcases hab with hab1 | ⟨habe, hab2⟩
  · rcases hbc with hbc1 | ⟨hbce, _⟩
    · exact Or.inl (charListLtB_trans _ _ _ hab1 hbc1)
    · exact Or.inl (hbce ▸ hab1)
  · rcases hbc with hbc1 | ⟨hbce, hbc2⟩
    · exact Or.inl (habe ▸ hbc1)
    · refine Or.inr ⟨habe.trans hbce, ?_⟩
      by_cases hba2 : strLtB a.2 b.2 = true
      · by_contra hca2
        simp only [Bool.not_eq_false] at hca2
        have : strLtB c.2 b.2 = true := charListLtB_trans _ _ _ hca2 hba2
        rw [this] at hbc2
        exact absurd hbc2 (by simp)
      · simp only [Bool.not_eq_true] at hba2
        have h7 : a.2 = b.2 := strLtB_eq_of_not hba2 hab2
        rw [← h7] at hbc2
        exact hbc2

/-!
Percent-encoding (`src/auth/oauth1.rs` lines 14-25). The source builds
an `AsciiSet` as `NON_ALPHANUMERIC` minus `-`, `.`, `_`, `~` and feeds
it to `utf8_percent_encode`, which walks the UTF-8 bytes of the input
and encodes a byte iff it is non-ASCII or a member of the set, writing
`%` followed by two uppercase hex digits. Bytes are modelled as `Nat`
(< 256 for real inputs).
-/

set_option maxRecDepth 4096 in
theorem encodeByte_eq_spec_small :
    ∀ b < 256, encodeByte b = percentEncodeSpecByte b := by decide

theorem encodeByte_eq_spec (b : Nat) : encodeByte b = percentEncodeSpecByte b := by
  by_cases hb : b < 256
  · exact encodeByte_eq_spec_small b hb
  · have h1 : shouldEncodeByte b = true := by
      simp only [shouldEncodeByte, Bool.or_eq_true, decide_eq_true_eq]
      left; omega
    have h2 : isUnreservedSpec b = false := by
      simp only [isUnreservedSpec, isAsciiUpperB, isAsciiLowerB, isAsciiDigitB,
        Bool.or_eq_false_iff, Bool.and_eq_false_iff, decide_eq_false_iff_not,
        beq_eq_false_iff_ne, ne_eq]
      omega
    rw [encodeByte, percentEncodeSpecByte, if_pos h1, if_neg (by simp [h2])]

/-- Claim C7: the signer's percent-encoding leaves every byte of the
unreserved set (ASCII letters, digits, `-`, `.`, `_`, `~`) unchanged and
percent-encodes every other byte of the input's UTF-8 representation —
including `/`, `:`, `+`, space as `%20`, and each byte of a multi-byte
UTF-8 sequence individually. -/
theorem percent_encode_unreserved_spec :
    (∀ s : String,
        percent_encode s =
          String.mk ((s.data.flatMap utf8EncodeChar).flatMap percentEncodeSpecByte)) ∧
    percent_encode "/" = "%2F" ∧
    percent_encode ":" = "%3A" ∧
    percent_encode "+" = "%2B" ∧
    percent_encode " " = "%20" ∧
    percent_encode "é" = "%C3%A9" ∧
    percent_encode "AZaz09-._~" = "AZaz09-._~" := by
  refine ⟨fun s => ?_, by decide, by decide, by decide, by decide, by decide, by decide⟩
  unfold percent_encode
  rw [show encodeByte = percentEncodeSpecByte from funext encodeByte_eq_spec]

/-- Claim C1 (counterexample): with both the OAuth 1.0a slot (all four
core fields populated) and the PKCE slot (client id populated) present,
selection returns `OAuth2Pkce` (PkceDelegated), not `OAuth1`
(SignedUserContext) as the claim demands. -/
theorem detect_auth_method_pkce_beats_oauth1_counterexample :
    detect_auth_method
      { oauth1 := some { api_key := "k", api_secret := "s",
                         access_token := "t", access_token_secret := "ts",
                         bearer_token := none },
        oauth2 := some { client_id := "cid", client_secret := none },
        bearer := none }
      = .ok .OAuth2Pkce ∧
    detect_auth_method
      { oauth1 := some { api_key := "k", api_secret := "s",
                         access_token := "t", access_token_secret := "ts",
                         bearer_token := none },
        oauth2 := some { client_id := "cid", client_secret := none },
        bearer := none }
      ≠ .ok .OAuth1 := by
  refine ⟨rfl, fun h => ?_⟩
  exact absurd (Except.ok.inj h) (by decide)

/-- Claim C1 (amended): auth-method selection prefers PkceDelegated
(client id present) over SignedUserContext (its four core fields
present) over StaticBearerOnly (bearer token present), and returns
`NoAuthMethod` exactly when no slot is populated. -/
theorem sortPairs_perm (l : List (String × String)) : (sortPairs l).Perm l :=
  List.perm_insertionSort pairLe l

theorem sortPairs_sorted (l : List (String × String)) :
    List.Sorted pairLe (sortPairs l) :=
  List.sorted_insertionSort pairLe l

/-- Claim C2 (amended): the parameter string of the signature base is
formed by sorting the (key, value) pairs lexicographically by their raw
representation and joining percent-encoded `key=value` pairs with `&`;
for keys whose raw and encoded orderings differ, the raw ordering is
the one used. -/
theorem paramString_raw_sorted (ps : List (String × String)) :
    ∃ qs : List (String × String), qs.Perm ps ∧ List.Sorted pairLe qs ∧
      paramString ps = String.intercalate "&"
        (qs.map fun kv => percent_encode kv.1 ++ "=" ++ percent_encode kv.2) :=
  ⟨sortPairs ps, sortPairs_perm ps, sortPairs_sorted ps, rfl⟩

/-- Claim C2 (counterexample): for the signature parameter multiset made
of the six protocol parameters together with extra parameters keyed `-`
and `/` — keys whose raw ordering (`-` before `/`) and percent-encoded
ordering (`%2F` before `-`) differ — the generated parameter string uses
the raw ordering, not the encoded one demanded by the claim. -/
theorem paramString_encoded_sort_counterexample :
    paramString (allSignatureParams
        { api_key := "a", api_secret := "s", access_token := "b",
          access_token_secret := "t", bearer_token := none } "c" "1"
        (some [("-", "x"), ("/", "y")])
        { scheme := "https", host := "api.example", path := "/t", query := [] })
      = "-=x&%2F=y&oauth_consumer_key=a&oauth_nonce=c&oauth_signature_method=HMAC-SHA1&oauth_timestamp=1&oauth_token=b&oauth_version=1.0" ∧
    paramString (allSignatureParams
        { api_key := "a", api_secret := "s", access_token := "b",
          access_token_secret := "t", bearer_token := none } "c" "1"
        (some [("-", "x"), ("/", "y")])
        { scheme := "https", host := "api.example", path := "/t", query := [] })
      ≠ paramStringEncodedSort (allSignatureParams
        { api_key := "a", api_secret := "s", access_token := "b",
          access_token_secret := "t", bearer_token := none } "c" "1"
        (some [("-", "x"), ("/", "y")])
        { scheme := "https", host := "api.example", path := "/t", query := [] }) := by
  constructor
  · decide
  · decide

/-- Claim C10: the signed `Authorization` header consists of exactly the
six fixed protocol parameters plus `oauth_signature`, rendered in
ascending key order; caller-supplied extra parameters and URL query
parameters occur only inside the signature value and never as header
parameters. -/
theorem generate_oauth_header_fixed_params
    (hmacSha1Base64 : String → String → String) (method : String)
    (url : UrlParts) (creds : OAuth1Credentials)
    (params : Option (List (String × String))) (nonce timestamp : String) :
    headerParams hmacSha1Base64 method url creds params nonce timestamp =
      [("oauth_consumer_key", creds.api_key),
       ("oauth_nonce", nonce),
       ("oauth_signature",
         oauthSignature hmacSha1Base64 method url creds params nonce timestamp),
       ("oauth_signature_method", "HMAC-SHA1"),
       ("oauth_timestamp", timestamp),
       ("oauth_token", creds.access_token),
       ("oauth_version", "1.0")] ∧
    generate_oauth_header hmacSha1Base64 method url creds params nonce timestamp =
      "OAuth " ++ String.intercalate ", "
        ((headerParams hmacSha1Base64 method url creds params nonce timestamp).map
          fun kv => percent_encode kv.1 ++ "=\"" ++ percent_encode kv.2 ++ "\"") :=
  ⟨rfl, rfl⟩

theorem detect_auth_method_selection_order (creds : CredentialSet) :
    (detect_auth_method creds = .ok .OAuth2Pkce ↔ creds.oauth2.isSome) ∧
    (detect_auth_method creds = .ok .OAuth1 ↔
      creds.oauth2 = none ∧ creds.oauth1.isSome) ∧
    (detect_auth_method creds = .ok .BearerOnly ↔
      creds.oauth2 = none ∧ creds.oauth1 = none ∧ creds.bearer.isSome) ∧
    (detect_auth_method creds = .error .noAuthMethod ↔
      creds.oauth2 = none ∧ creds.oauth1 = none ∧ creds.bearer = none) := by
  obtain ⟨o1, o2, b⟩ := creds
  cases o2 <;> cases o1 <;> cases b <;> simp [detect_auth_method]

/-- Claim C3 (counterexample): with oauth2 credentials present and a
stored record whose expiry has passed (`now + 60 ≥ expiry`) but which
has no refresh token, `get_oauth2_bearer` does not error: it returns the
header built from the stale stored access token. -/
theorem get_oauth2_bearer_stale_counterexample :
    get_oauth2_bearer (some { client_id := "cid", client_secret := none })
      (.ok (some { access_token := "stale", refresh_token := none,
                   expires_at := some 0 }))
      0 (fun _ => .error (.request "unreachable"))
      = .ok ("Bearer stale", 0) := rfl

/-- Claim C3 (amended): when the stored record has a recorded expiry
with `now + 60s ≥ expiry` and no refresh token, the operation returns a
header built from the stored (stale) access token rather than an error;
`NoAuthMethod` is returned only when the oauth2 credentials or the
stored token record are absent. -/
theorem get_oauth2_bearer_stale_no_refresh (creds : OAuth2Credentials)
    (tokens : TokenData) (now e : Int)
    (doRefresh : String → Except OAuth2Error TokenData)
    (h1 : tokens.expires_at = some e) (h2 : now + 60 ≥ e)
    (h3 : tokens.refresh_token = none) :
    get_oauth2_bearer (some creds) (.ok (some tokens)) now doRefresh
      = .ok ("Bearer " ++ tokens.access_token, 0) ∧
    get_oauth2_bearer none (.ok (some tokens)) now doRefresh
      = .error (.auth .noAuthMethod) ∧
    get_oauth2_bearer (some creds) (.ok none) now doRefresh
      = .error (.auth .noAuthMethod) := by
  refine ⟨?_, rfl, rfl⟩
  simp [get_oauth2_bearer, h1, h2, h3]

/-- Witness for the amended C3 theorem at a concrete input: a record
expiring one second from now with no refresh token yields the stale
bearer header. -/
theorem get_oauth2_bearer_stale_no_refresh_witness :
    get_oauth2_bearer (some { client_id := "cid", client_secret := none })
      (.ok (some { access_token := "tok", refresh_token := none,
                   expires_at := some 100 }))
      99 (fun _ => .error (.request "unreachable"))
      = .ok ("Bearer tok", 0) :=
  (get_oauth2_bearer_stale_no_refresh
    { client_id := "cid", client_secret := none }
    { access_token := "tok", refresh_token := none, expires_at := some 100 }
    99 100 (fun _ => .error (.request "unreachable"))
    rfl (by decide) rfl).1

/-- Claim C6: before using a PkceDelegated token, a refresh exchange is
performed if and only if the stored record has a recorded expiry with
`now + 60s ≥ expiry` and a refresh token present; the refreshed access
token is the one used for the header, and otherwise the stored token is
used without refresh. -/
theorem get_oauth2_bearer_refresh_iff (creds : OAuth2Credentials)
    (tokens : TokenData) (now : Int)
    (doRefresh : String → Except OAuth2Error TokenData) :
    (∀ e r newTd, tokens.expires_at = some e → now + 60 ≥ e →
        tokens.refresh_token = some r → doRefresh r = .ok newTd →
        get_oauth2_bearer (some creds) (.ok (some tokens)) now doRefresh
          = .ok ("Bearer " ++ newTd.access_token, 1)) ∧
    ((tokens.expires_at = none ∨
        (∃ e, tokens.expires_at = some e ∧ now + 60 < e) ∨
        tokens.refresh_token = none) →
      get_oauth2_bearer (some creds) (.ok (some tokens)) now doRefresh
        = .ok ("Bearer " ++ tokens.access_token, 0)) := by
  constructor
  · intro e r newTd h1 h2 h3 h4
    simp [get_oauth2_bearer, h1, h2, h3, h4]
  · rintro (h | ⟨e, h1, h2⟩ | h)
    · simp [get_oauth2_bearer, h]
    · have hn : ¬ now + 60 ≥ e := by omega
      simp [get_oauth2_bearer, h1, hn]
    · rcases h4 : tokens.expires_at with _ | e
      · simp [get_oauth2_bearer, h4]
      · by_cases hc : now + 60 ≥ e
        · simp [get_oauth2_bearer, h4, hc, h]
        · simp [get_oauth2_bearer, h4, hc]

/-- Witness for the C6 theorem at concrete inputs: a token expiring in
59 seconds triggers exactly one refresh and the refreshed access token
is used; a token expiring in 61 seconds is used without refresh. -/
theorem get_oauth2_bearer_refresh_iff_witness :
    get_oauth2_bearer (some { client_id := "cid", client_secret := none })
      (.ok (some { access_token := "old", refresh_token := some "r",
                   expires_at := some 59 }))
      0 (fun _ => .ok { access_token := "new", refresh_token := some "r2",
                        expires_at := some 7200 })
      = .ok ("Bearer new", 1) ∧
    get_oauth2_bearer (some { client_id := "cid", client_secret := none })
      (.ok (some { access_token := "old", refresh_token := some "r",
                   expires_at := some 61 }))
      0 (fun _ => .ok { access_token := "new", refresh_token := some "r2",
                        expires_at := some 7200 })
      = .ok ("Bearer old", 0) := by
  constructor
  · exact (get_oauth2_bearer_refresh_iff
      { client_id := "cid", client_secret := none }
      { access_token := "old", refresh_token := some "r", expires_at := some 59 }
      0 (fun _ => .ok { access_token := "new", refresh_token := some "r2",
                        expires_at := some 7200 })).1
      59 "r" { access_token := "new", refresh_token := some "r2",
               expires_at := some 7200 }
      rfl (by decide) rfl rfl
  · exact (get_oauth2_bearer_refresh_iff
      { client_id := "cid", client_secret := none }
      { access_token := "old", refresh_token := some "r", expires_at := some 61 }
      0 (fun _ => .ok { access_token := "new", refresh_token := some "r2",
                        expires_at := some 7200 })).2
      (Or.inr (Or.inl ⟨61, rfl, by decide⟩))

/-- Claim C4 (counterexample): with the active method `BearerOnly` (so
no user-scoped credential exists), a user-context request does not fail
with `OAuth1Required`/`NoAuthMethod`: it returns the app-only bearer
header. -/
theorem oauth_get_bearer_fallback_counterexample :
    oauth_get_auth_header (fun _ _ => "sig")
      { method := .BearerOnly,
        credentials := { oauth1 := none, oauth2 := none,
                         bearer := some { bearer_token := "apptok" } } }
      (.ok none) 0 (fun _ => .error (.request "unreachable"))
      { scheme := "https", host := "api.x.com", path := "/2/users/me", query := [] }
      "n" "1"
      = .ok ("Bearer apptok", 0) := rfl

/-- Claim C4 (amended): user-context requests dispatch on the active
method. With `OAuth1` active the signed user-scoped header is used and
the request fails with `OAuth1Required` when the OAuth1 slot is empty;
with `BearerOnly` active the request does not fail but falls back to the
app-only bearer header, failing with `NoAuthMethod` only when no bearer
token exists at all. -/
theorem oauth_get_dispatch (hmacSha1Base64 : String → String → String)
    (auth : AuthProvider) (loadResult : Except OAuth2Error (Option TokenData))
    (now : Int) (doRefresh : String → Except OAuth2Error TokenData)
    (url : UrlParts) (nonce timestamp : String) :
    (∀ o1, auth.method = .OAuth1 → auth.credentials.oauth1 = some o1 →
      oauth_get_auth_header hmacSha1Base64 auth loadResult now doRefresh url nonce timestamp
        = .ok (generate_oauth_header hmacSha1Base64 "GET" url o1 none nonce timestamp, 0)) ∧
    (auth.method = .OAuth1 → auth.credentials.oauth1 = none →
      oauth_get_auth_header hmacSha1Base64 auth loadResult now doRefresh url nonce timestamp
        = .error (.auth .oauth1Required)) ∧
    (∀ bc, auth.method = .BearerOnly → auth.credentials.oauth1 = none →
      auth.credentials.bearer = some bc →
      oauth_get_auth_header hmacSha1Base64 auth loadResult now doRefresh url nonce timestamp
        = .ok ("Bearer " ++ bc.bearer_token, 0)) ∧
    (auth.method = .BearerOnly → auth.credentials.oauth1 = none →
      auth.credentials.bearer = none →
      oauth_get_auth_header hmacSha1Base64 auth loadResult now doRefresh url nonce timestamp
        = .error (.auth .noAuthMethod)) := by
  refine ⟨?_, ?_, ?_, ?_⟩
  · intro o1 hm ho
    simp [oauth_get_auth_header, hm, get_oauth_header, ho]
  · intro hm ho
    simp [oauth_get_auth_header, hm, get_oauth_header, ho]
  · intro bc hm ho hb
    simp [oauth_get_auth_header, hm, get_bearer_header, ho, hb]
  · intro hm ho hb
    simp [oauth_get_auth_header, hm, get_bearer_header, ho, hb]

/-- Witness for the amended C4 theorem at a concrete input: active
method `BearerOnly` with a standalone bearer token yields the bearer
header. -/
theorem oauth_get_dispatch_witness :
    oauth_get_auth_header (fun _ _ => "sig")
      { method := .BearerOnly,
        credentials := { oauth1 := none, oauth2 := none,
                         bearer := some { bearer_token := "tok2" } } }
      (.ok none) 5 (fun _ => .error (.request "unreachable"))
      { scheme := "https", host := "api.x.com", path := "/2/tweets/1", query := [] }
      "n2" "2"
      = .ok ("Bearer tok2", 0) :=
  ((oauth_get_dispatch (fun _ _ => "sig")
      { method := .BearerOnly,
        credentials := { oauth1 := none, oauth2 := none,
                         bearer := some { bearer_token := "tok2" } } }
      (.ok none) 5 (fun _ => .error (.request "unreachable"))
      { scheme := "https", host := "api.x.com", path := "/2/tweets/1", query := [] }
      "n2" "2").2.2.1)
    { bearer_token := "tok2" } rfl rfl rfl

/-- Claim C5: for every callback request whose `state` parameter is
absent or differs from the flow's CSRF token, the flow fails with
`CsrfMismatch` and persists no token record. -/
theorem pkce_csrf_mismatch_no_persist (query csrfState : String)
    (exchangeCode : String → Except String TokenData)
    (h : (parseCallbackQuery query).2 = none ∨
      ∀ s, (parseCallbackQuery query).2 = some s → s ≠ csrfState) :
    finish_pkce_flow (parseCallbackQuery query).1 (parseCallbackQuery query).2
        csrfState exchangeCode
      = (.error .csrfMismatch, []) := by
  rcases h with h | h
  · simp [finish_pkce_flow, h]
  · rcases hs : (parseCallbackQuery query).2 with _ | s
    · simp [finish_pkce_flow]
    · have hne := h s hs
      simp [finish_pkce_flow, hne]

/-- Witness for the C5 theorem at a concrete input: a callback carrying
`state=evil` against CSRF token `good` fails with `CsrfMismatch` and
writes nothing. -/
theorem pkce_csrf_mismatch_no_persist_witness :
    finish_pkce_flow (parseCallbackQuery "code=abc&state=evil").1
        (parseCallbackQuery "code=abc&state=evil").2 "good"
        (fun _ => .ok { access_token := "a", refresh_token := none,
                        expires_at := none })
      = (.error .csrfMismatch, []) :=
  pkce_csrf_mismatch_no_persist "code=abc&state=evil" "good"
    (fun _ => .ok { access_token := "a", refresh_token := none,
                    expires_at := none })
    (Or.inr (by decide))

/-- Claim C8: response classification — status 429 maps to
`RateLimited` carrying the parsed reset header when present (the current
time otherwise); any other non-success status maps to `ApiError` with
that status and the body; a success status whose body fails to
deserialize maps to `Deserialize` carrying the parse message and the raw
body; a success status with a parsed body yields that value. -/
theorem handle_response_classification {α : Type} (now : Int)
    (deser : String → Except String α) (resp : HttpResponse) :
    (resp.status = 429 →
      handle_response now deser resp
        = .error (.rateLimited (resp.rateLimitReset.getD now))) ∧
    (∀ t, resp.status = 429 → resp.rateLimitReset = some t →
      handle_response now deser resp = .error (.rateLimited t)) ∧
    (resp.status ≠ 429 → statusIsSuccess resp.status = false →
      handle_response now deser resp
        = .error (.apiError resp.status resp.body)) ∧
    (∀ e, statusIsSuccess resp.status = true → deser resp.body = .error e →
      handle_response now deser resp
        = .error (.deserialize (e ++ ": " ++ resp.body))) ∧
    (∀ v, statusIsSuccess resp.status = true → deser resp.body = .ok v →
      handle_response now deser resp = .ok v) := by
  refine ⟨?_, ?_, ?_, ?_, ?_⟩
  · intro h429
    simp [handle_response, h429]
  · intro t h429 hreset
    simp [handle_response, h429, hreset]
  · intro h429 hfail
    simp [handle_response, h429, hfail]
  · intro e hok hde
    have h429 : resp.status ≠ 429 := by
      simp only [statusIsSuccess, Bool.and_eq_true, decide_eq_true_eq] at hok
      omega
    simp [handle_response, h429, hok, hde]
  · intro v hok hde
    have h429 : resp.status ≠ 429 := by
      simp only [statusIsSuccess, Bool.and_eq_true, decide_eq_true_eq] at hok
      omega
    simp [handle_response, h429, hok, hde]

/-- Witness for the C8 theorem at concrete inputs: a 429 response with a
parsed reset header yields `RateLimited` with exactly that timestamp; a
404 yields `ApiError`; a 200 whose body fails parsing yields
`Deserialize` with the message and raw body. -/
theorem handle_response_classification_witness :
    handle_response (α := Nat) 5 (fun _ => .error "bad json")
      { status := 429, rateLimitReset := some 1700000123, body := "limited" }
      = .error (.rateLimited 1700000123) ∧
    handle_response (α := Nat) 5 (fun _ => .error "bad json")
      { status := 404, rateLimitReset := none, body := "not found" }
      = .error (.apiError 404 "not found") ∧
    handle_response (α := Nat) 5 (fun _ => .error "bad json")
      { status := 200, rateLimitReset := none, body := "oops" }
      = .error (.deserialize ("bad json" ++ ": " ++ "oops")) := by
  refine ⟨?_, ?_, ?_⟩
  · exact (handle_response_classification 5 (fun _ => .error "bad json")
      { status := 429, rateLimitReset := some 1700000123, body := "limited" }).2.1
      1700000123 rfl rfl
  · exact (handle_response_classification 5 (fun _ => .error "bad json")
      { status := 404, rateLimitReset := none, body := "not found" }).2.2.1
      (by decide) (by decide)
  · exact (handle_response_classification 5 (fun _ => .error "bad json")
      { status := 200, rateLimitReset := none, body := "oops" }).2.2.2.1
      "bad json" (by decide) rfl

/-- Claim C9: saving any token record — including records with no
refresh token and no expiry — and loading it back returns `some` of an
identical record. -/
theorem save_load_roundtrip (fs : Option Json) (d : TokenData) :
    load_tokens (save_tokens fs d) = .ok (some d) := by
  obtain ⟨a, rt, ea⟩ := d
  cases rt <;> cases ea <;> rfl

end Xplorer
